import Mathlib

/-!
Verification development for the sunnypilot Hyundai car controller
(`src/opendbc/car/hyundai/carcontroller.py`).

The per-tick actuation core is embedded shallowly: real-valued quantities are
modelled as rationals (float literals are written as exact rationals), machine
integers as `Nat`/`Int`, and the controller's mutable attributes as an explicit
state record threaded through the tick function.  Collaborators that live in
this repository but outside `src/` (the kinematic vehicle model, the shared
`opendbc.car` helpers, the platform constant tables, the sunnypilot
longitudinal controller) are either parameters of the embedding or are
modelled from the specification; each such definition carries a doc comment
saying so.  Message payload encoding is delegated to external encoders by the
specification and is out of scope: outbound messages are represented by their
builder and scheduling-relevant arguments only.
-/

namespace OpendbcHyundai

/-! ### Static constants (src lines 32–46) -/

/-- EPS fault threshold: angle magnitude (deg) above which sustained torque
faults the EPS (src line 34). -/
def MAX_ANGLE : ℚ := 85

/-- Cumulative over-limit frame cap (src line 35). -/
def MAX_ANGLE_FRAMES : Nat := 89

/-- Consecutive over-limit frame cap (src line 36). -/
def MAX_ANGLE_CONSECUTIVE_FRAMES : Nat := 2

/-- Hard cap on the per-tick steering angle delta, deg per tick (src line 38). -/
def MAX_ANGLE_RATE : ℚ := 5

/-- Modelled from the spec: `ACCELERATION_DUE_TO_GRAVITY` (opendbc.car, outside
src/) is 9.81 m/s², consistent with the spec's "~3.6" totals for the budgets
below. -/
def ACCELERATION_DUE_TO_GRAVITY : ℚ := 981 / 100

/-- Modelled from the spec: `ISO_LATERAL_ACCEL` (opendbc.car.interfaces,
outside src/) is the ISO baseline lateral acceleration, 3.0 m/s²; the spec
gives the roll-compensated total as ~3.6 m/s². -/
def ISO_LATERAL_ACCEL : ℚ := 3

/-- Average banked-road roll compensation, ~6% superelevation (src line 40). -/
def AVERAGE_ROAD_ROLL : ℚ := 6 / 100

/-- Maximum lateral acceleration budget, ≈3.6 m/s² (src line 41). -/
def MAX_LATERAL_ACCEL : ℚ := ISO_LATERAL_ACCEL + ACCELERATION_DUE_TO_GRAVITY * AVERAGE_ROAD_ROLL

/-- Maximum lateral jerk budget, ≈3.6 m/s³ (src line 42). -/
def MAX_LATERAL_JERK : ℚ := 3 + ACCELERATION_DUE_TO_GRAVITY * AVERAGE_ROAD_ROLL

/-- Modelled from the spec: `DT_CTRL` (opendbc.car, outside src/) is the fixed
100 Hz control period, 0.01 s per tick. -/
def DT_CTRL : ℚ := 1 / 100

/-! ### Shared numeric helpers -/

/-- `np.clip(x, lo, hi)`: the maximum bound is applied last, so a degenerate
interval (`hi < lo`) yields `hi`, exactly as numpy does. -/
def clip (x lo hi : ℚ) : ℚ := min (max x lo) hi

/-- `np.interp(x, xs, ys)`: piecewise-linear interpolation through the points
`(xs[i], ys[i])`, clamped to the end values outside the table's domain. -/
def interp (x : ℚ) : List ℚ → List ℚ → ℚ
  | x1 :: x2 :: xs, y1 :: y2 :: ys =>
    if x ≤ x1 then y1
    else if x ≤ x2 then y1 + (y2 - y1) * (x - x1) / (x2 - x1)
    else interp x (x2 :: xs) (y2 :: ys)
  | [_], [y1] => y1
  | _, _ => 0

/-- Modelled from the spec: `rate_limit` (opendbc.car, outside src/) limits the
new value symmetrically around the last value by the given per-tick steps
(spec §4.2 step 3). -/
def rate_limit (new_value last_value dw_step up_step : ℚ) : ℚ :=
  clip new_value (last_value + dw_step) (last_value + up_step)

/-- Modelled from the spec: `common_fault_avoidance` (opendbc.car, outside
src/), spec §4.1: the counter advances only while the over-limit condition and
the request both hold and resets to zero the instant the condition is false;
the request is cut once the cumulative count exceeds `max_above_limit_frames`
or the consecutive streak exceeds `max_consecutive_frames`.  Under that policy
the cumulative and consecutive counters advance and reset together, so a
single counter represents both. -/
def common_fault_avoidance (fault_condition request : Bool) (above_limit_frames : Nat)
    (max_above_limit_frames max_consecutive_frames : Nat) : Nat × Bool :=
  if fault_condition && request then
    let c := above_limit_frames + 1
    (c, !(decide (max_above_limit_frames < c) || decide (max_consecutive_frames < c)))
  else
    (0, request)

/-! ### Data model -/

/-- Longitudinal control state enum (subset used by the controller). -/
inductive LongCtrlState
  | off
  | pid
  | stopping
  | starting
deriving DecidableEq

/-- Planner-requested actuation (`CC.actuators`). -/
structure Actuators where
  torque : ℚ
  steeringAngleDeg : ℚ
  accel : ℚ
  longControlState : LongCtrlState
deriving DecidableEq

/-- Supervisory cruise intents (`CC.cruiseControl`). -/
structure CruiseControl where
  cancel : Bool
  resume : Bool
deriving DecidableEq

/-- Per-tick car control input (`CC`).  HUD fields are payload-only and the
spec delegates payload encoding to external encoders, so they are omitted. -/
structure CarControl where
  latActive : Bool
  enabled : Bool
  cruiseControl : CruiseControl
  actuators : Actuators
deriving DecidableEq

/-- Per-tick vehicle state snapshot (`CS.out`), restricted to the fields the
control core reads for scheduling and limiting. -/
structure CarState where
  vEgoRaw : ℚ
  steeringAngleDeg : ℚ
  steeringTorque : ℚ
  steeringPressed : Bool
deriving DecidableEq

/-- Platform flags of `CP` (`HyundaiFlags` membership tests plus
`openpilotLongitudinalControl`), fixed for the session. -/
structure CarParams where
  canfd : Bool
  canfd_angle_steering : Bool
  canfd_camera_scc : Bool
  canfd_lka_steering : Bool
  canfd_lka_steering_alt : Bool
  canfd_alt_buttons : Bool
  enable_blinkers : Bool
  send_lfa : Bool
  use_fca : Bool
  openpilotLongitudinalControl : Bool
deriving DecidableEq

/-- Modelled from the spec: the static per-platform constant table
(`CarControllerParams`, opendbc.car.hyundai.values, outside src/) together
with the controller's construction-time tuning snapshot (src lines 146–161)
and the static capability flags of the ESCC / ADAS-interceptor collaborators
(sunnypilot, outside src/).  All fields are read-only during ticks (spec §3). -/
structure ControllerParams where
  STEER_MAX : ℚ
  STEER_ANGLE_MAX : ℚ
  ACCEL_MIN : ℚ
  ACCEL_MAX : ℚ
  SMOOTHING_ANGLE_MAX_VEGO : ℚ
  SMOOTHING_ANGLE_VEGO_MATRIX : List ℚ
  SMOOTHING_ANGLE_ALPHA_MATRIX : List ℚ
  STEER_DELTA_UP : ℚ
  STEER_DELTA_DOWN : ℚ
  ramp_down_reduction_gain_rate : ℚ
  ramp_up_reduction_gain_rate : ℚ
  min_torque_reduction_gain : ℚ
  max_torque_reduction_gain : ℚ
  active_torque_reduction_gain : ℚ
  angle_torque_override_cycles : ℚ
  angle_enable_smoothing_factor : Bool
  escc_enabled : Bool
  interceptor_available : Bool
  ecan : Nat
deriving DecidableEq

/-- Persistent controller state: the mutable attributes of `CarController`
threaded explicitly (src lines 132–161 initialization). -/
structure CCState where
  frame : Nat
  angle_limit_counter : Nat
  accel_last : ℚ
  apply_torque_last : ℚ
  last_button_frame : Nat
  apply_angle_last : ℚ
  tuning_actual_accel : ℚ
deriving DecidableEq

/-- Construction-time controller state (src `__init__`). -/
def initState : CCState :=
  { frame := 0
    angle_limit_counter := 0
    accel_last := 0
    apply_torque_last := 0
    last_button_frame := 0
    apply_angle_last := 0
    tuning_actual_accel := 0 }

/-- Echoed actuator state built at the end of `update` (src lines 228–232). -/
structure ActuatorsOut where
  torque : ℚ
  torqueOutputCan : ℚ
  steeringAngleDeg : ℚ
  accel : ℚ
deriving DecidableEq

/-! ### Outbound messages

The spec delegates bit-level payload encoding to external encoders; an
outbound message is represented by its builder tag plus the
scheduling-relevant arguments computed inside `src`. -/

/-- Cruise button identifiers (`Buttons`, opendbc.car.hyundai.values). -/
inductive Buttons
  | RES_ACCEL
  | CANCEL
deriving DecidableEq

/-- One outbound CAN message, tagged by its builder. -/
inductive CanMsg
  | tester_present (addr bus : Nat)
  | lkas11 (apply_steer_req : Bool) (apply_torque : ℚ) (torque_fault : Bool)
  | clu11 (b : Buttons)
  | acc_commands
  | lfahda_mfc
  | acc_opt
  | frt_radar_opt
  | adas_drv_intercept
  | steering (apply_steer_req : Bool) (apply_torque apply_angle : ℚ)
  | suppress_lfa
  | lfahda_cluster
  | spas
  | adrv
  | fca_warning_light
  | acc_control (accel_last accel : ℚ) (stopping : Bool)
  | acc_cancel
  | canfd_buttons (b : Buttons)
deriving DecidableEq

/-- `make_tester_present_msg` (opendbc.car, outside src/): a single
keep-alive diagnostic message to the given address and bus. -/
def make_tester_present_msg (addr bus : Nat) : CanMsg :=
  CanMsg.tester_present addr bus

/-! ### Steering angle limiter (src lines 55–89, 346–378) -/

/-- `get_max_angle_delta` (src lines 55–58) with the default 100 Hz frequency.
`VM c v` stands for `math.degrees(VM.get_steer_from_curvature(c, v, 0))` of
the external kinematic model collaborator (spec §2), taken as a parameter. -/
def get_max_angle_delta (VM : ℚ → ℚ → ℚ) (v_ego_raw : ℚ) : ℚ :=
  let max_curvature_rate_sec := MAX_LATERAL_JERK / v_ego_raw ^ 2
  let max_angle_rate_sec := VM max_curvature_rate_sec v_ego_raw
  max_angle_rate_sec / 100

/-- `get_max_angle` (src lines 60–62), with `VM` as in `get_max_angle_delta`. -/
def get_max_angle (VM : ℚ → ℚ → ℚ) (v_ego_raw : ℚ) : ℚ :=
  let max_curvature := MAX_LATERAL_ACCEL / v_ego_raw ^ 2
  VM max_curvature v_ego_raw

/-- `sp_smooth_angle` (src lines 64–89): blend the new desired angle with the
previously applied angle using a speed-scheduled factor, skipping the blend
for changes of at most 0.1 deg. -/
def sp_smooth_angle (P : ControllerParams) (v_ego_raw apply_angle apply_angle_last : ℚ) : ℚ :=
  if 1 / 10 < |apply_angle - apply_angle_last| then
    let adjusted_alpha := interp v_ego_raw P.SMOOTHING_ANGLE_VEGO_MATRIX P.SMOOTHING_ANGLE_ALPHA_MATRIX
    let adjusted_alpha_limited := min adjusted_alpha 1
    apply_angle * adjusted_alpha_limited + apply_angle_last * (1 - adjusted_alpha_limited)
  else
    apply_angle

/-- Candidate stage of the angle limiter (src lines 351–354): hardware-range
clamp of the raw desired angle followed by the gated smoothing step. -/
def candidate_angle (P : ControllerParams) (v_ego_raw apply_angle_last apply_angle : ℚ) : ℚ :=
  let a := clip apply_angle (-(8192 / 10)) (8191 / 10)
  if P.angle_enable_smoothing_factor = true ∧ |v_ego_raw| < P.SMOOTHING_ANGLE_MAX_VEGO then
    sp_smooth_angle P v_ego_raw a apply_angle_last
  else
    a

/-- `apply_hyundai_steer_angle_limits` (src lines 346–378): the per-tick
safety-bounded steering angle.  `apply_angle_last` is the persisted
`self.apply_angle_last`. -/
def apply_hyundai_steer_angle_limits (P : ControllerParams) (VM : ℚ → ℚ → ℚ)
    (apply_angle_last : ℚ) (CS : CarState) (CC : CarControl) (apply_angle : ℚ) : ℚ :=
  let lat_active := CC.latActive
  let v_ego_raw := CS.vEgoRaw
  let steering_angle := CS.steeringAngleDeg
  let apply_angle1 := candidate_angle P v_ego_raw apply_angle_last apply_angle
  -- max lateral jerk limit, hard-capped to prevent a fault
  let max_angle_delta := min (get_max_angle_delta VM (max v_ego_raw 1)) MAX_ANGLE_RATE
  let new_apply_angle := rate_limit apply_angle1 apply_angle_last (-max_angle_delta) max_angle_delta
  -- max lateral accel limit
  let max_angle := get_max_angle VM (max v_ego_raw 1)
  let new_apply_angle2 := clip new_apply_angle (-max_angle) max_angle
  -- angle is current angle when inactive
  let new_apply_angle3 := if lat_active = false then steering_angle else new_apply_angle2
  -- prevent fault
  clip new_apply_angle3 (-P.STEER_ANGLE_MAX) P.STEER_ANGLE_MAX

/-! ### Torque-reduction gain controller (src lines 380–398) -/

/-- `calculate_angle_torque_reduction_gain` (src lines 380–393).
`apply_torque_last` is the persisted `self.apply_torque_last`. -/
def calculate_angle_torque_reduction_gain (P : ControllerParams) (apply_torque_last : ℚ)
    (CS : CarState) (target_torque_reduction_gain : ℚ) : ℚ :=
  if CS.steeringPressed then
    let torque_delta := apply_torque_last - P.min_torque_reduction_gain
    let adaptive_ramp_rate := max (torque_delta / P.angle_torque_override_cycles) (4 / 1000)
    max (apply_torque_last - adaptive_ramp_rate) P.min_torque_reduction_gain
  else
    let target_torque :=
      clip target_torque_reduction_gain P.active_torque_reduction_gain P.max_torque_reduction_gain
    if target_torque < apply_torque_last then
      max (apply_torque_last - P.ramp_down_reduction_gain_rate) target_torque
    else
      min (apply_torque_last + P.ramp_up_reduction_gain_rate) target_torque

/-- `update_angle_steering_control` (src lines 395–398). -/
def update_angle_steering_control (P : ControllerParams) (VM : ℚ → ℚ → ℚ) (s : CCState)
    (CS : CarState) (CC : CarControl) (actuators : Actuators) : ℚ × ℚ :=
  (apply_hyundai_steer_angle_limits P VM s.apply_angle_last CS CC actuators.steeringAngleDeg,
   calculate_angle_torque_reduction_gain P s.apply_torque_last CS |actuators.torque|)

/-- One angle-mode gain step as composed by `update` (src lines 184–196 with
`latActive` true): the raw gain step followed by the caller's safety clamp
into the configured gain band. -/
def angle_gain_step (P : ControllerParams) (CS : CarState) (target g : ℚ) : ℚ :=
  clip (calculate_angle_torque_reduction_gain P g CS target)
    P.min_torque_reduction_gain P.max_torque_reduction_gain

/-! ### Modelled external sub-controllers -/

/-- Modelled from the spec: `apply_driver_steer_torque_limits` (opendbc.car,
outside src/), spec §4.4 torque mode: asymmetric rate-limited convergence
toward the clamped torque target, anchored at the last commanded torque,
permitting faster movement toward zero when the driver applies opposing
torque than when increasing assertion. -/
def apply_driver_steer_torque_limits (P : ControllerParams)
    (apply_torque apply_torque_last driver_torque : ℚ) : ℚ :=
  let target := clip apply_torque (-P.STEER_MAX) P.STEER_MAX
  let opposing := driver_torque * apply_torque_last < 0
  let toward_zero := |target| < |apply_torque_last|
  let step := if toward_zero ∧ opposing then P.STEER_DELTA_DOWN else P.STEER_DELTA_UP
  clip target (apply_torque_last - step) (apply_torque_last + step)

/-- Modelled from the spec: `LongitudinalController.update` (sunnypilot,
outside src/).  The spec (§4.4 steps 1, 5–6) says only that the longitudinal
sub-update runs on even ticks and that the echoed acceleration is the
realized acceleration held by the longitudinal tuning state; modelled as
latching the statically clamped requested acceleration. -/
def longitudinal_update (P : ControllerParams) (CC : CarControl) : ℚ :=
  clip CC.actuators.accel P.ACCEL_MIN P.ACCEL_MAX

/-! ### Cadence scheduler: legacy CAN bus (src lines 237–283)

Payload-only arguments of the builders (HUD alert processing, set speed in
display units, jerk, accel) are delegated to external encoders by the spec
and are dropped; the scheduling conditions and message multiplicities are
kept exactly. -/

/-- `create_can_msgs` (src lines 237–283).  Returns the emitted messages and
the new `self.last_button_frame`. -/
def create_can_msgs (P : ControllerParams) (CP : CarParams) (frame last_button_frame : Nat)
    (apply_steer_req : Bool) (apply_torque : ℚ) (torque_fault : Bool)
    (CC : CarControl) : List CanMsg × Nat :=
  let lkas := [CanMsg.lkas11 apply_steer_req apply_torque torque_fault]
  -- button messages (only when longitudinal control is not self-managed)
  let buttons : List CanMsg × Nat :=
    if CP.openpilotLongitudinalControl = false then
      if CC.cruiseControl.cancel then
        ([CanMsg.clu11 Buttons.CANCEL], last_button_frame)
      else if CC.cruiseControl.resume then
        -- send resume at a max freq of 10Hz
        if 1 / 10 < ((frame : ℚ) - (last_button_frame : ℚ)) * DT_CTRL then
          -- 25 messages at a time to increase the likelihood of resume being accepted
          (List.replicate 25 (CanMsg.clu11 Buttons.RES_ACCEL),
           if 15 / 100 ≤ ((frame : ℚ) - (last_button_frame : ℚ)) * DT_CTRL then frame
           else last_button_frame)
        else ([], last_button_frame)
      else ([], last_button_frame)
    else ([], last_button_frame)
  let acc :=
    if frame % 2 == 0 && CP.openpilotLongitudinalControl then [CanMsg.acc_commands] else []
  -- 20 Hz LFA MFA message
  let lfa := if frame % 5 == 0 && CP.send_lfa then [CanMsg.lfahda_mfc] else []
  -- 5 Hz ACC options
  let acc_opt :=
    if frame % 20 == 0 && CP.openpilotLongitudinalControl then [CanMsg.acc_opt] else []
  -- 2 Hz front radar options
  let radar :=
    if frame % 50 == 0 && CP.openpilotLongitudinalControl && !P.escc_enabled then
      [CanMsg.frt_radar_opt]
    else []
  (lkas ++ buttons.1 ++ acc ++ lfa ++ acc_opt ++ radar, buttons.2)

/-! ### Cadence scheduler: extended CAN FD bus (src lines 285–344) -/

/-- `create_canfd_msgs` (src lines 285–344).  Returns the emitted messages,
the new `self.last_button_frame` and the new `self.accel_last`. -/
def create_canfd_msgs (P : ControllerParams) (CP : CarParams) (frame last_button_frame : Nat)
    (accel_last : ℚ) (apply_steer_req : Bool) (apply_torque apply_angle_last accel : ℚ)
    (stopping : Bool) (CC : CarControl) : List CanMsg × Nat × ℚ :=
  let lka_steering := CP.canfd_lka_steering
  let lka_steering_long := lka_steering && CP.openpilotLongitudinalControl
  let intercept := if P.interceptor_available then [CanMsg.adas_drv_intercept] else []
  -- steering control
  let steer := [CanMsg.steering apply_steer_req apply_torque apply_angle_last]
  -- prevent LFA from activating on LKA steering cars
  let sup := if frame % 5 == 0 && lka_steering then [CanMsg.suppress_lfa] else []
  -- LFA and HDA icons
  let icons :=
    if frame % 5 == 0 && (!lka_steering || lka_steering_long) then [CanMsg.lfahda_cluster]
    else []
  -- blinkers
  let blink := if lka_steering && CP.enable_blinkers then [CanMsg.spas] else []
  let head := intercept ++ steer ++ sup ++ icons ++ blink
  if CP.openpilotLongitudinalControl then
    let warn :=
      if lka_steering then
        if !P.interceptor_available then [CanMsg.adrv] else []
      else [CanMsg.fca_warning_light]
    let accc :=
      if frame % 2 == 0 then [CanMsg.acc_control accel_last accel stopping] else []
    let accel_last' := if frame % 2 == 0 then accel else accel_last
    (head ++ warn ++ accc, last_button_frame, accel_last')
  else
    -- button presses
    let b : List CanMsg × Nat :=
      if 1 / 4 < ((frame : ℚ) - (last_button_frame : ℚ)) * DT_CTRL then
        -- cruise cancel
        if CC.cruiseControl.cancel then
          if CP.canfd_alt_buttons then ([CanMsg.acc_cancel], frame)
          else (List.replicate 20 (CanMsg.canfd_buttons Buttons.CANCEL), frame)
        -- cruise standstill resume
        else if CC.cruiseControl.resume then
          if CP.canfd_alt_buttons then
            -- resume for alt button cars is not implemented in the source
            ([], last_button_frame)
          else (List.replicate 20 (CanMsg.canfd_buttons Buttons.RES_ACCEL), frame)
        else ([], last_button_frame)
      else ([], last_button_frame)
    (head ++ b.1, b.2, accel_last)

/-! ### Actuation orchestrator (src lines 164–235) -/

/-- Result of one orchestrator tick: the new persistent state, the echoed
actuator state and the ordered outbound message list. -/
structure TickOutput where
  state : CCState
  actuators : ActuatorsOut
  can_sends : List CanMsg

/-- `CarController.update` (src lines 164–235).  The ESCC, ADAS-interceptor
and MADS sub-updates only refresh capability flags and HUD icon payloads,
which are static fields of `ControllerParams` in this model; the
longitudinal sub-update runs on even ticks (src line 168).  `set_speed_in_units`
and the HUD alert outputs are payload-only arguments of the message builders
and are omitted (the spec delegates payload encoding to external encoders). -/
def update (P : ControllerParams) (CP : CarParams) (VM : ℚ → ℚ → ℚ) (s : CCState)
    (CC : CarControl) (CS : CarState) : TickOutput :=
  let tuning_actual_accel :=
    if s.frame % 2 == 0 then longitudinal_update P CC else s.tuning_actual_accel
  let actuators := CC.actuators
  -- steering: torque mode or angle mode, branching on the static platform flag
  let steer : Nat × Bool × ℚ × ℚ :=
    if CP.canfd_angle_steering = false then
      let fa := common_fault_avoidance (decide (MAX_ANGLE ≤ |CS.steeringAngleDeg|)) CC.latActive
        s.angle_limit_counter MAX_ANGLE_FRAMES MAX_ANGLE_CONSECUTIVE_FRAMES
      let new_torque : ℚ := ((round (actuators.torque * P.STEER_MAX) : ℤ) : ℚ)
      let apply_torque :=
        apply_driver_steer_torque_limits P new_torque s.apply_torque_last CS.steeringTorque
      (fa.1, fa.2, s.apply_angle_last, apply_torque)
    else
      let aa := update_angle_steering_control P VM s CS CC actuators
      -- safety clamp
      let apply_torque := clip aa.2 P.min_torque_reduction_gain P.max_torque_reduction_gain
      (s.angle_limit_counter, CC.latActive && decide (apply_torque ≠ 0), aa.1, apply_torque)
  let angle_limit_counter := steer.1
  let apply_steer_req := steer.2.1
  let apply_angle_last := steer.2.2.1
  let apply_torque := if CC.latActive = false then 0 else steer.2.2.2
  -- hold torque with induced temporary fault when cutting the actuation bit
  let torque_fault := CC.latActive && !apply_steer_req
  -- accel + longitudinal
  let accel := clip actuators.accel P.ACCEL_MIN P.ACCEL_MAX
  let stopping := decide (actuators.longControlState = LongCtrlState.stopping)
  -- tester present (keeps the relevant ECU disabled)
  let tester :=
    if s.frame % 100 == 0 &&
        !(CP.canfd_camera_scc || P.escc_enabled || P.interceptor_available) &&
        CP.openpilotLongitudinalControl then
      (if CP.canfd_lka_steering then [make_tester_present_msg 0x730 P.ecan]
       else [make_tester_present_msg 0x7d0 (if CP.canfd then P.ecan else 0)]) ++
      (if CP.enable_blinkers then [make_tester_present_msg 0x7b1 P.ecan] else [])
    else []
  -- CAN / CAN FD specific messages
  let bus : List CanMsg × Nat × ℚ :=
    if CP.canfd then
      create_canfd_msgs P CP s.frame s.last_button_frame s.accel_last apply_steer_req
        apply_torque apply_angle_last accel stopping CC
    else
      let r := create_can_msgs P CP s.frame s.last_button_frame apply_steer_req apply_torque
        torque_fault CC
      (r.1, r.2, s.accel_last)
  { state :=
      { frame := s.frame + 1
        angle_limit_counter := angle_limit_counter
        accel_last := bus.2.2
        apply_torque_last := apply_torque
        last_button_frame := bus.2.1
        apply_angle_last := apply_angle_last
        tuning_actual_accel := tuning_actual_accel }
    actuators :=
      { torque := apply_torque / P.STEER_MAX
        torqueOutputCan := apply_torque
        steeringAngleDeg := apply_angle_last
        accel := tuning_actual_accel }
    can_sends := tester ++ bus.1 }

/-! ### Runs and counting -/

/-- One limiter input: the tick's vehicle state, control input and raw
desired angle. -/
structure LimiterInput where
  CS : CarState
  CC : CarControl
  apply_angle : ℚ
deriving DecidableEq

/-- Outputs of the angle limiter along a run, threading
`self.apply_angle_last` exactly as `update` does in angle mode. -/
def limiterRun (P : ControllerParams) (VM : ℚ → ℚ → ℚ) :
    ℚ → List LimiterInput → List ℚ
  | _, [] => []
  | last, i :: rest =>
    let o := apply_hyundai_steer_angle_limits P VM last i.CS i.CC i.apply_angle
    o :: limiterRun P VM o rest

/-- Iterated orchestrator ticks with constant per-tick inputs, collecting the
per-tick outbound message lists. -/
def runTicks (P : ControllerParams) (CP : CarParams) (VM : ℚ → ℚ → ℚ)
    (CC : CarControl) (CS : CarState) : Nat → CCState × List (List CanMsg)
  | 0 => (initState, [])
  | n + 1 =>
    let r := runTicks P CP VM CC CS n
    let u := update P CP VM r.1 CC CS
    (u.state, r.2 ++ [u.can_sends])

/-- Iterated orchestrator ticks over a list of per-tick inputs, collecting
the echoed actuator states. -/
def updateRun (P : ControllerParams) (CP : CarParams) (VM : ℚ → ℚ → ℚ) :
    CCState → List (CarControl × CarState) → List ActuatorsOut
  | _, [] => []
  | s, i :: rest =>
    let u := update P CP VM s i.1 i.2
    u.actuators :: updateRun P CP VM u.state rest

/-- Tick indices (into a list of per-tick message lists) on which a message
satisfying `p` was emitted. -/
def ticksWhere (p : CanMsg → Bool) (mss : List (List CanMsg)) : List Nat :=
  (((List.range mss.length).zip mss).filter (fun x => x.2.any p)).map (fun x => x.1)

/-- Recognizer for keep-alive (tester-present) messages. -/
def isTesterPresent : CanMsg → Bool
  | CanMsg.tester_present _ _ => true
  | _ => false

/-- Recognizer for longitudinal acceleration command batches. -/
def isAccCommands : CanMsg → Bool
  | CanMsg.acc_commands => true
  | _ => false

/-- Recognizer for lane-icon (LFA MFA) messages. -/
def isLfahdaMfc : CanMsg → Bool
  | CanMsg.lfahda_mfc => true
  | _ => false

/-- Recognizer for ACC-options batches. -/
def isAccOpt : CanMsg → Bool
  | CanMsg.acc_opt => true
  | _ => false

/-- Recognizer for front-radar-options messages. -/
def isFrtRadarOpt : CanMsg → Bool
  | CanMsg.frt_radar_opt => true
  | _ => false

/-- Recognizer for legacy-bus resume button messages. -/
def isResumeButton : CanMsg → Bool
  | CanMsg.clu11 Buttons.RES_ACCEL => true
  | _ => false

/-- Recognizer for extended-bus button-path messages (cruise buttons and the
alt-button cancel message). -/
def isCanfdButtonMsg : CanMsg → Bool
  | CanMsg.canfd_buttons _ => true
  | CanMsg.acc_cancel => true
  | _ => false

/-! ### Concrete instances used in simulations, witnesses and counterexamples -/

/-- A concrete platform/tuning instance with representative values (the actual
table lives outside src/ and is a parameter of every general theorem). -/
def Pbase : ControllerParams :=
  { STEER_MAX := 384
    STEER_ANGLE_MAX := 90
    ACCEL_MIN := -(7 / 2)
    ACCEL_MAX := 2
    SMOOTHING_ANGLE_MAX_VEGO := 11
    SMOOTHING_ANGLE_VEGO_MATRIX := [0, 10]
    SMOOTHING_ANGLE_ALPHA_MATRIX := [1 / 5, 1]
    STEER_DELTA_UP := 3
    STEER_DELTA_DOWN := 7
    ramp_down_reduction_gain_rate := 1 / 100
    ramp_up_reduction_gain_rate := 1 / 200
    min_torque_reduction_gain := 1 / 10
    max_torque_reduction_gain := 23 / 25
    active_torque_reduction_gain := 3 / 25
    angle_torque_override_cycles := 25
    angle_enable_smoothing_factor := true
    escc_enabled := false
    interceptor_available := false
    ecan := 4 }

/-- Legacy bus, longitudinal self-managed, LFA-capable, no substitute ECU. -/
def CPlegacyLong : CarParams :=
  { canfd := false
    canfd_angle_steering := false
    canfd_camera_scc := false
    canfd_lka_steering := false
    canfd_lka_steering_alt := false
    canfd_alt_buttons := false
    enable_blinkers := false
    send_lfa := true
    use_fca := false
    openpilotLongitudinalControl := true }

/-- Legacy bus, longitudinal not self-managed (stock cruise buttons). -/
def CPlegacyNoLong : CarParams :=
  { CPlegacyLong with openpilotLongitudinalControl := false, send_lfa := false }

/-- Extended bus, angle steering platform. -/
def CPangle : CarParams :=
  { CPlegacyLong with canfd := true, canfd_angle_steering := true }

/-- Extended bus, alt-button platform, longitudinal not self-managed. -/
def CPfdAlt : CarParams :=
  { CPlegacyLong with
    canfd := true
    canfd_alt_buttons := true
    openpilotLongitudinalControl := false }

/-- A concrete linear stand-in for the external kinematic model parameter. -/
def VM0 : ℚ → ℚ → ℚ := fun c _ => c

/-- Quiescent vehicle state. -/
def CS0 : CarState :=
  { vEgoRaw := 0, steeringAngleDeg := 0, steeringTorque := 0, steeringPressed := false }

/-- Vehicle state at speed 2 m/s. -/
def CSv2 : CarState := { CS0 with vEgoRaw := 2 }

/-- Vehicle state with a true steering angle of 100 degrees. -/
def CS100 : CarState := { CS0 with steeringAngleDeg := 100 }

/-- Vehicle state with the driver pressing the wheel. -/
def CSpressed : CarState := { CS0 with steeringPressed := true }

/-- Quiescent control input (lateral inactive, no cruise intents). -/
def CC0 : CarControl :=
  { latActive := false
    enabled := false
    cruiseControl := { cancel := false, resume := false }
    actuators :=
      { torque := 0, steeringAngleDeg := 0, accel := 0, longControlState := LongCtrlState.off } }

/-- Control input with lateral control active. -/
def CCactive : CarControl := { CC0 with latActive := true }

/-- Control input continuously requesting cruise resume. -/
def CCresume : CarControl := { CC0 with cruiseControl := { cancel := false, resume := true } }

/-! ### Claim C9 (theorem; its witness appears below) -/

set_option maxHeartbeats 1000000 in
/-- Claim C9: on the extended (CAN FD) bus with longitudinal control not
self-managed, the alt-button feature flag set, no cancel request, and a
resume request on a tick where more than 0.25 s has elapsed since the last
button frame: the scheduler emits no button messages for the resume request
and the last-button-frame latch does not advance. -/
theorem claim_C9_alt_button_resume_noop (P : ControllerParams) (CP : CarParams)
    (frame last_button_frame : Nat) (accel_last : ℚ) (apply_steer_req : Bool)
    (apply_torque apply_angle_last accel : ℚ) (stopping : Bool) (CC : CarControl)
    (halt : CP.canfd_alt_buttons = true)
    (hlong : CP.openpilotLongitudinalControl = false)
    (hcancel : CC.cruiseControl.cancel = false)
    (hresume : CC.cruiseControl.resume = true)
    (helapsed : 1 / 4 < ((frame : ℚ) - (last_button_frame : ℚ)) * DT_CTRL) :
    (∀ m ∈ (create_canfd_msgs P CP frame last_button_frame accel_last apply_steer_req
        apply_torque apply_angle_last accel stopping CC).1, isCanfdButtonMsg m = false) ∧
    (create_canfd_msgs P CP frame last_button_frame accel_last apply_steer_req
        apply_torque apply_angle_last accel stopping CC).2.1 = last_button_frame := by
  clear helapsed
  constructor
  · have hall : ((create_canfd_msgs P CP frame last_button_frame accel_last apply_steer_req
        apply_torque apply_angle_last accel stopping CC).1.all
          (fun m => !isCanfdButtonMsg m)) = true := by
      simp only [create_canfd_msgs, hlong, halt, hcancel, hresume, -reduceIte]
      split_ifs <;> simp_all [isCanfdButtonMsg]
    intro m hm
    simpa using List.all_eq_true.mp hall m hm
  · simp only [create_canfd_msgs, hlong, halt, hcancel, hresume, -reduceIte]
    split_ifs <;> simp_all


section RatEval
/- Batteries marks the `Rat` arithmetic operations `@[irreducible]`, which
blocks the `decide` front end's evaluator (the kernel itself ignores
reducibility annotations).  Restoring the default reducibility locally lets
closed facts about concrete runs be settled by `decide`; it changes nothing
about the produced proof terms. -/
set_option allowUnsafeReducibility true
attribute [local semireducible] Rat.add Rat.sub Rat.mul Rat.inv

/-! ### Helper lemmas about clipping -/

theorem clip_le_right (x lo hi : ℚ) : clip x lo hi ≤ hi := min_le_right _ _

theorem left_le_clip (x lo hi : ℚ) (h : lo ≤ hi) : lo ≤ clip x lo hi :=
  le_min (le_max_right x lo) h

theorem clip_eq_self (x lo hi : ℚ) (h1 : lo ≤ x) (h2 : x ≤ hi) : clip x lo hi = x := by
  unfold clip
  rw [max_eq_left h1, min_eq_left h2]

/-- Clipping to an interval that contains `c` cannot move a point away from `c`. -/
theorem abs_clip_sub_le (x lo hi c : ℚ) (h1 : lo ≤ c) (h2 : c ≤ hi) :
    |clip x lo hi - c| ≤ |x - c| := by
  have hx1 : x - c ≤ |x - c| := le_abs_self _
  have hx2 : -|x - c| ≤ x - c := neg_abs_le _
  unfold clip
  have hub : min (max x lo) hi ≤ c + |x - c| := by
    refine le_trans (min_le_left _ _) (max_le (by linarith) (by linarith))
  have hlb : c - |x - c| ≤ min (max x lo) hi := by
    refine le_min (le_trans (by linarith) (le_max_left x lo)) (by linarith)
  rw [abs_le]
  constructor <;> linarith

/-- The symmetric rate limiter moves the value at most `d` away from `last`. -/
theorem rate_limit_abs_sub_le (x last d : ℚ) (hd : 0 ≤ d) :
    |rate_limit x last (-d) d - last| ≤ d := by
  unfold rate_limit clip
  have h1 : last + -d ≤ min (max x (last + -d)) (last + d) :=
    le_min (le_max_right _ _) (by linarith)
  have h2 : min (max x (last + -d)) (last + d) ≤ last + d := min_le_right _ _
  rw [abs_le]
  constructor <;> linarith

/-- A double symmetric clip lands in both bands (for nonnegative radii). -/
theorem clip_clip_box (y m M : ℚ) (hm : 0 ≤ m) (hM : 0 ≤ M) :
    -m ≤ clip (clip y (-m) m) (-M) M ∧ clip (clip y (-m) m) (-M) M ≤ m ∧
      -M ≤ clip (clip y (-m) m) (-M) M ∧ clip (clip y (-m) m) (-M) M ≤ M := by
  have h1 : -m ≤ clip y (-m) m := left_le_clip _ _ _ (by linarith)
  have h2 : clip y (-m) m ≤ m := clip_le_right _ _ _
  refine ⟨?_, ?_, left_le_clip _ _ _ (by linarith), clip_le_right _ _ _⟩
  · exact le_min (le_trans h1 (le_max_left _ _)) (by linarith)
  · exact le_trans (min_le_left _ _) (max_le h2 (by linarith))

/-- A double symmetric clip cannot move a point away from any point of both
bands. -/
theorem clip_clip_dist (y m M c : ℚ) (h1 : -m ≤ c) (h2 : c ≤ m) (h3 : -M ≤ c) (h4 : c ≤ M) :
    |clip (clip y (-m) m) (-M) M - c| ≤ |y - c| :=
  le_trans (abs_clip_sub_le _ _ _ _ h3 h4) (abs_clip_sub_le _ _ _ _ h1 h2)

/-! ### Limiter shape lemmas -/

/-- With lateral control active, the angle limiter is the rate limit around
the last commanded angle followed by the two symmetric clamps. -/
theorem limiter_active_eq (P : ControllerParams) (VM : ℚ → ℚ → ℚ) (last : ℚ)
    (CS : CarState) (CC : CarControl) (a : ℚ) (hact : CC.latActive = true) :
    apply_hyundai_steer_angle_limits P VM last CS CC a =
      clip (clip (rate_limit (candidate_angle P CS.vEgoRaw last a) last
          (-(min (get_max_angle_delta VM (max CS.vEgoRaw 1)) MAX_ANGLE_RATE))
          (min (get_max_angle_delta VM (max CS.vEgoRaw 1)) MAX_ANGLE_RATE))
        (-(get_max_angle VM (max CS.vEgoRaw 1))) (get_max_angle VM (max CS.vEgoRaw 1)))
      (-P.STEER_ANGLE_MAX) P.STEER_ANGLE_MAX := by
  simp [apply_hyundai_steer_angle_limits, hact]

/-- The limiter output always lies in the static hard-clamp band. -/
theorem limiter_abs_le (P : ControllerParams) (VM : ℚ → ℚ → ℚ) (last : ℚ)
    (CS : CarState) (CC : CarControl) (a : ℚ) (hM : 0 ≤ P.STEER_ANGLE_MAX) :
    |apply_hyundai_steer_angle_limits P VM last CS CC a| ≤ P.STEER_ANGLE_MAX := by
  simp only [apply_hyundai_steer_angle_limits]
  rw [abs_le]
  exact ⟨left_le_clip _ _ _ (by linarith), clip_le_right _ _ _⟩

/-- With lateral control active, the limiter output lies in both the dynamic
lateral-acceleration band and the static hard-clamp band. -/
theorem limiter_box (P : ControllerParams) (VM : ℚ → ℚ → ℚ) (last : ℚ)
    (CS : CarState) (CC : CarControl) (a : ℚ) (hact : CC.latActive = true)
    (hm : 0 ≤ get_max_angle VM (max CS.vEgoRaw 1)) (hM : 0 ≤ P.STEER_ANGLE_MAX) :
    -(get_max_angle VM (max CS.vEgoRaw 1)) ≤ apply_hyundai_steer_angle_limits P VM last CS CC a ∧
      apply_hyundai_steer_angle_limits P VM last CS CC a ≤ get_max_angle VM (max CS.vEgoRaw 1) ∧
      -P.STEER_ANGLE_MAX ≤ apply_hyundai_steer_angle_limits P VM last CS CC a ∧
      apply_hyundai_steer_angle_limits P VM last CS CC a ≤ P.STEER_ANGLE_MAX := by
  rw [limiter_active_eq P VM last CS CC a hact]
  exact clip_clip_box _ _ _ hm hM

/-- With lateral control active and a last command inside both bands, one
limiter application moves the command by at most the per-tick delta cap. -/
theorem limiter_step (P : ControllerParams) (VM : ℚ → ℚ → ℚ) (last : ℚ)
    (CS : CarState) (CC : CarControl) (a : ℚ) (hact : CC.latActive = true)
    (hd : 0 ≤ get_max_angle_delta VM (max CS.vEgoRaw 1))
    (hb1 : -(get_max_angle VM (max CS.vEgoRaw 1)) ≤ last)
    (hb2 : last ≤ get_max_angle VM (max CS.vEgoRaw 1))
    (hb3 : -P.STEER_ANGLE_MAX ≤ last) (hb4 : last ≤ P.STEER_ANGLE_MAX) :
    |apply_hyundai_steer_angle_limits P VM last CS CC a - last| ≤
      min (get_max_angle_delta VM (max CS.vEgoRaw 1)) MAX_ANGLE_RATE := by
  rw [limiter_active_eq P VM last CS CC a hact]
  refine le_trans (clip_clip_dist _ _ _ last hb1 hb2 hb3 hb4) ?h
  exact rate_limit_abs_sub_le _ _ _ (le_min hd (by norm_num [MAX_ANGLE_RATE]))

/-- In angle mode the echoed commanded angle is exactly the limiter output. -/
theorem update_angle_echo (P : ControllerParams) (CP : CarParams) (VM : ℚ → ℚ → ℚ)
    (s : CCState) (CC : CarControl) (CS : CarState)
    (hmode : CP.canfd_angle_steering = true) :
    (update P CP VM s CC CS).actuators.steeringAngleDeg =
      apply_hyundai_steer_angle_limits P VM s.apply_angle_last CS CC
        CC.actuators.steeringAngleDeg := by
  simp [update, update_angle_steering_control, hmode]

/-! ### Claim C1 -/

/-- Claim C1: for every tick in angle-steering mode, the steering angle
returned by the limiter (and echoed as the commanded angle) lies in
[-STEER_ANGLE_MAX, STEER_ANGLE_MAX], the platform's static maximum steering
angle, regardless of the raw desired angle, speed, or lateral-active flag. -/
theorem claim_C1_angle_always_hard_clamped (P : ControllerParams) (CP : CarParams)
    (VM : ℚ → ℚ → ℚ) (s : CCState) (CC : CarControl) (CS : CarState)
    (hmode : CP.canfd_angle_steering = true) (hM : 0 ≤ P.STEER_ANGLE_MAX) :
    |(update P CP VM s CC CS).actuators.steeringAngleDeg| ≤ P.STEER_ANGLE_MAX ∧
    (update P CP VM s CC CS).actuators.steeringAngleDeg =
      apply_hyundai_steer_angle_limits P VM s.apply_angle_last CS CC
        CC.actuators.steeringAngleDeg := by
  have he := update_angle_echo P CP VM s CC CS hmode
  refine ⟨?h, he⟩
  rw [he]
  exact limiter_abs_le P VM s.apply_angle_last CS CC CC.actuators.steeringAngleDeg hM

/-- Witness for C1 at a concrete angle-mode tick. -/
theorem claim_C1_witness :
    |(update Pbase CPangle VM0 initState CCactive CS0).actuators.steeringAngleDeg| ≤
      Pbase.STEER_ANGLE_MAX :=
  (claim_C1_angle_always_hard_clamped Pbase CPangle VM0 initState CCactive CS0 rfl
    (by decide)).1

/-! ### Claim C2 -/

/-- Auxiliary induction for the rate-limit law: starting from a last command
inside both bands, consecutive limiter outputs stay within the per-tick
delta cap of each other. -/
theorem limiterRun_chain_from (P : ControllerParams) (VM : ℚ → ℚ → ℚ) (v : ℚ)
    (inputs : List LimiterInput)
    (hd : 0 ≤ get_max_angle_delta VM (max v 1))
    (hm : 0 ≤ get_max_angle VM (max v 1))
    (hM : 0 ≤ P.STEER_ANGLE_MAX) :
    (∀ i ∈ inputs, i.CS.vEgoRaw = v ∧ i.CC.latActive = true) →
    ∀ last, -(get_max_angle VM (max v 1)) ≤ last → last ≤ get_max_angle VM (max v 1) →
      -P.STEER_ANGLE_MAX ≤ last → last ≤ P.STEER_ANGLE_MAX →
      List.Chain' (fun x y => |y - x| ≤ min (get_max_angle_delta VM (max v 1)) MAX_ANGLE_RATE)
        (last :: limiterRun P VM last inputs) := by
  induction inputs with
  | nil =>
    intro _ last _ _ _ _
    simp [limiterRun]
  | cons i rest ih =>
    intro hv last h1 h2 h3 h4
    have hi := hv i (List.mem_cons_self i rest)
    have hveq : i.CS.vEgoRaw = v := hi.1
    have hact : i.CC.latActive = true := hi.2
    have hstep := limiter_step P VM last i.CS i.CC i.apply_angle hact
      (by rw [hveq]; exact hd) (by rw [hveq]; exact h1) (by rw [hveq]; exact h2) h3 h4
    rw [hveq] at hstep
    have hbox := limiter_box P VM last i.CS i.CC i.apply_angle hact
      (by rw [hveq]; exact hm) hM
    rw [hveq] at hbox
    simp only [limiterRun]
    rw [List.chain'_cons]
    exact ⟨hstep, ih (fun j hj => hv j (List.mem_cons_of_mem _ hj)) _
      hbox.1 hbox.2.1 hbox.2.2.1 hbox.2.2.2⟩

/-- Claim C2: for any constant speed v > 0 held across ticks with latActive
continuously true, the per-tick change of the commanded angle satisfies
|angle(t) − angle(t−1)| ≤ min(kinematicRateCap(v), MAX_ANGLE_RATE) for every
tick t, where kinematicRateCap(v) is the lateral-jerk budget divided by
max(v,1)², converted to an angle rate by the kinematic model and divided by
the 100 Hz control frequency. -/
theorem claim_C2_rate_limit_law (P : ControllerParams) (VM : ℚ → ℚ → ℚ) (v a0 : ℚ)
    (inputs : List LimiterInput)
    (hv : ∀ i ∈ inputs, i.CS.vEgoRaw = v ∧ i.CC.latActive = true)
    (hvpos : 0 < v)
    (hd : 0 ≤ get_max_angle_delta VM (max v 1))
    (hm : 0 ≤ get_max_angle VM (max v 1))
    (hM : 0 ≤ P.STEER_ANGLE_MAX) :
    List.Chain' (fun x y => |y - x| ≤ min (get_max_angle_delta VM (max v 1)) MAX_ANGLE_RATE)
      (limiterRun P VM a0 inputs) := by
  cases inputs with
  | nil => simp [limiterRun]
  | cons i rest =>
    have hi := hv i (List.mem_cons_self i rest)
    have hbox := limiter_box P VM a0 i.CS i.CC i.apply_angle hi.2
      (by rw [hi.1]; exact hm) hM
    rw [hi.1] at hbox
    simp only [limiterRun]
    exact limiterRun_chain_from P VM v rest hd hm hM
      (fun j hj => hv j (List.mem_cons_of_mem _ hj)) _
      hbox.1 hbox.2.1 hbox.2.2.1 hbox.2.2.2

/-- Concrete limiter input at speed 2 with lateral control active. -/
def LIv2 : LimiterInput := { CS := CSv2, CC := CCactive, apply_angle := 10 }

/-- Witness for C2 on a concrete two-tick run at constant speed 2. -/
theorem claim_C2_witness :
    List.Chain' (fun x y => |y - x| ≤ min (get_max_angle_delta VM0 (max 2 1)) MAX_ANGLE_RATE)
      (limiterRun Pbase VM0 0 [LIv2, LIv2]) :=
  claim_C2_rate_limit_law Pbase VM0 2 0 [LIv2, LIv2] (by decide) (by decide) (by decide)
    (by decide) (by decide)

/-! ### Claim C3 -/

set_option maxRecDepth 40000 in
set_option maxHeartbeats 4000000 in
/-- Claim C3: in a 500-tick run (ticks 0..499) on the legacy bus with
openpilotLongitudinalControl true and no substitute radar/ADAS ECU active,
the scheduler emits exactly 5 keep-alive (tester-present) batches at ticks
{0,100,200,300,400}, exactly 250 acceleration command batches (every even
tick), exactly 100 lane-icon (LFA) messages (every 5th tick, given the
send-LFA flag), exactly 25 ACC-options batches (every 20th tick), and
exactly 10 radar-option messages (every 50th tick); the radar-option count
is 0 when the substitute-ECU (ESCC) flag is enabled. -/
theorem claim_C3_legacy_cadence :
    ticksWhere isTesterPresent (runTicks Pbase CPlegacyLong VM0 CC0 CS0 500).2 =
      [0, 100, 200, 300, 400] ∧
    ticksWhere isAccCommands (runTicks Pbase CPlegacyLong VM0 CC0 CS0 500).2 =
      (List.range 500).filter (fun t => t % 2 == 0) ∧
    (ticksWhere isAccCommands (runTicks Pbase CPlegacyLong VM0 CC0 CS0 500).2).length = 250 ∧
    ticksWhere isLfahdaMfc (runTicks Pbase CPlegacyLong VM0 CC0 CS0 500).2 =
      (List.range 500).filter (fun t => t % 5 == 0) ∧
    (ticksWhere isLfahdaMfc (runTicks Pbase CPlegacyLong VM0 CC0 CS0 500).2).length = 100 ∧
    ticksWhere isAccOpt (runTicks Pbase CPlegacyLong VM0 CC0 CS0 500).2 =
      (List.range 500).filter (fun t => t % 20 == 0) ∧
    (ticksWhere isAccOpt (runTicks Pbase CPlegacyLong VM0 CC0 CS0 500).2).length = 25 ∧
    ticksWhere isFrtRadarOpt (runTicks Pbase CPlegacyLong VM0 CC0 CS0 500).2 =
      (List.range 500).filter (fun t => t % 50 == 0) ∧
    (ticksWhere isFrtRadarOpt (runTicks Pbase CPlegacyLong VM0 CC0 CS0 500).2).length = 10 ∧
    ticksWhere isFrtRadarOpt
      (runTicks { Pbase with escc_enabled := true } CPlegacyLong VM0 CC0 CS0 500).2 = [] := by
  decide

/-! ### Claim C4 -/

set_option maxRecDepth 20000 in
/-- Claim C4 counterexample: with resume requested continuously from tick 0
on the legacy bus (longitudinal not self-managed, no cancel), the code sends
no resume batch at tick 0 — the resend check `(frame − lastButtonFrame) ·
DT_CTRL > 0.1` is false until tick 11 — and batches do fire inside the
window 1..14 (at ticks 11..14), contradicting both parts of the claim. -/
theorem claim_C4_counterexample :
    ticksWhere isResumeButton (runTicks Pbase CPlegacyNoLong VM0 CCresume CS0 41).2 =
      [11, 12, 13, 14, 15, 26, 27, 28, 29, 30] ∧
    0 ∉ ticksWhere isResumeButton (runTicks Pbase CPlegacyNoLong VM0 CCresume CS0 41).2 ∧
    12 ∈ ticksWhere isResumeButton (runTicks Pbase CPlegacyNoLong VM0 CCresume CS0 41).2 := by
  decide

set_option maxRecDepth 20000 in
/-- Claim C4 (amended): on the legacy bus with longitudinal control not
self-managed, cruise-resume requested continuously from tick 0 and no
cancel request: no batch fires during ticks 0–10; 25-message resume batches
fire on each of ticks 11–15; the last-sent latch advances only at tick 15
(when 0.15 s has elapsed); no batch fires during ticks 16–25; and the next
batches fire at ticks 26–30. -/
theorem claim_C4_resume_throttle :
    ((runTicks Pbase CPlegacyNoLong VM0 CCresume CS0 41).2.map
        (fun l => l.countP (fun m => decide (m = CanMsg.clu11 Buttons.RES_ACCEL)))) =
      List.replicate 11 0 ++ List.replicate 5 25 ++ List.replicate 10 0 ++
        List.replicate 5 25 ++ List.replicate 10 0 ∧
    (runTicks Pbase CPlegacyNoLong VM0 CCresume CS0 15).1.last_button_frame = 0 ∧
    (runTicks Pbase CPlegacyNoLong VM0 CCresume CS0 16).1.last_button_frame = 15 := by
  decide

/-! ### Claim C5 -/

/-- Claim C5 (amended): for every angle-mode tick with lateral control
active, the final gain output returned as the `torqueOutputCan` field of the
echoed actuators lies in [min_torque_reduction_gain,
max_torque_reduction_gain], regardless of the driver-override state; when
lateral control is inactive the top-level override forces the output to 0
instead. -/
theorem claim_C5_gain_clamped_when_active (P : ControllerParams) (CP : CarParams)
    (VM : ℚ → ℚ → ℚ) (s : CCState) (CC : CarControl) (CS : CarState)
    (hmode : CP.canfd_angle_steering = true) (hact : CC.latActive = true)
    (hband : P.min_torque_reduction_gain ≤ P.max_torque_reduction_gain) :
    P.min_torque_reduction_gain ≤ (update P CP VM s CC CS).actuators.torqueOutputCan ∧
    (update P CP VM s CC CS).actuators.torqueOutputCan ≤ P.max_torque_reduction_gain := by
  have he : (update P CP VM s CC CS).actuators.torqueOutputCan =
      clip (calculate_angle_torque_reduction_gain P s.apply_torque_last CS
          |CC.actuators.torque|)
        P.min_torque_reduction_gain P.max_torque_reduction_gain := by
    simp [update, update_angle_steering_control, hmode, hact]
  rw [he]
  exact ⟨left_le_clip _ _ _ hband, clip_le_right _ _ _⟩

/-- Claim C5 counterexample: with lateral control inactive on an angle-mode
tick, the echoed gain output is forced to 0, which lies below the configured
minimum gain 1/10 — so the band invariant does not hold "regardless of the
latActive flag". -/
theorem claim_C5_counterexample :
    (update Pbase CPangle VM0 initState CC0 CS0).actuators.torqueOutputCan = 0 ∧
    ¬(Pbase.min_torque_reduction_gain ≤
        (update Pbase CPangle VM0 initState CC0 CS0).actuators.torqueOutputCan) := by
  decide

/-- Witness for amended C5 at a concrete active angle-mode tick. -/
theorem claim_C5_witness :
    Pbase.min_torque_reduction_gain ≤
      (update Pbase CPangle VM0 initState CCactive CS0).actuators.torqueOutputCan ∧
    (update Pbase CPangle VM0 initState CCactive CS0).actuators.torqueOutputCan ≤
      Pbase.max_torque_reduction_gain :=
  claim_C5_gain_clamped_when_active Pbase CPangle VM0 initState CCactive CS0 rfl rfl
    (by decide)

/-! ### Claim C6 -/

/-- Claim C6: in the override branch (steeringPressed true on every tick
from tick 0, angle mode, latActive true), the gain sequence is
non-increasing, each step decreases by max((lastGain − minGain)/
overrideCycles, 0.004) floored at minGain, and with gain₀ = maxGain,
minGain = 0.1, overrideCycles = 25 the gain reaches minGain within
⌈(gain₀ − minGain)/0.004⌉ ticks. -/
theorem claim_C6_override_convergence (P : ControllerParams) (CS : CarState) (target g0 : ℚ)
    (hp : CS.steeringPressed = true)
    (hband : P.min_torque_reduction_gain ≤ P.max_torque_reduction_gain)
    (hg0 : g0 = P.max_torque_reduction_gain)
    (hmin : P.min_torque_reduction_gain = 1 / 10)
    (hcyc : P.angle_torque_override_cycles = 25) :
    (∀ n : ℕ, (angle_gain_step P CS target)^[n + 1] g0 ≤ (angle_gain_step P CS target)^[n] g0) ∧
    (∀ n : ℕ, (angle_gain_step P CS target)^[n + 1] g0 =
      max ((angle_gain_step P CS target)^[n] g0 -
          max (((angle_gain_step P CS target)^[n] g0 - P.min_torque_reduction_gain) /
              P.angle_torque_override_cycles) (4 / 1000))
        P.min_torque_reduction_gain) ∧
    (∀ n : ℕ, ⌈(g0 - P.min_torque_reduction_gain) / (4 / 1000)⌉.toNat ≤ n →
      (angle_gain_step P CS target)^[n] g0 = P.min_torque_reduction_gain) := by
  have hinv : ∀ n : ℕ, P.min_torque_reduction_gain ≤ (angle_gain_step P CS target)^[n] g0 ∧
      (angle_gain_step P CS target)^[n] g0 ≤ P.max_torque_reduction_gain := by
    intro n
    cases n with
    | zero => exact ⟨hg0 ▸ hband, hg0 ▸ le_refl _⟩
    | succ m =>
      rw [Function.iterate_succ_apply']
      exact ⟨left_le_clip _ _ _ hband, clip_le_right _ _ _⟩
  have hstep : ∀ g : ℚ, P.min_torque_reduction_gain ≤ g → g ≤ P.max_torque_reduction_gain →
      angle_gain_step P CS target g =
        max (g - max ((g - P.min_torque_reduction_gain) / P.angle_torque_override_cycles)
            (4 / 1000))
          P.min_torque_reduction_gain := by
    intro g h1 h2
    have hrate : (4 : ℚ) / 1000 ≤
        max ((g - P.min_torque_reduction_gain) / P.angle_torque_override_cycles) (4 / 1000) :=
      le_max_right _ _
    have hcalc : calculate_angle_torque_reduction_gain P g CS target =
        max (g - max ((g - P.min_torque_reduction_gain) / P.angle_torque_override_cycles)
            (4 / 1000))
          P.min_torque_reduction_gain := by
      simp [calculate_angle_torque_reduction_gain, hp]
    have hub : max (g - max ((g - P.min_torque_reduction_gain) /
          P.angle_torque_override_cycles) (4 / 1000)) P.min_torque_reduction_gain ≤
        P.max_torque_reduction_gain := by
      refine max_le (by nlinarith) hband
    have hlb : P.min_torque_reduction_gain ≤
        max (g - max ((g - P.min_torque_reduction_gain) /
          P.angle_torque_override_cycles) (4 / 1000)) P.min_torque_reduction_gain :=
      le_max_right _ _
    calc angle_gain_step P CS target g
        = clip (calculate_angle_torque_reduction_gain P g CS target)
            P.min_torque_reduction_gain P.max_torque_reduction_gain := rfl
      _ = max (g - max ((g - P.min_torque_reduction_gain) / P.angle_torque_override_cycles)
              (4 / 1000)) P.min_torque_reduction_gain := by
          rw [hcalc]
          exact clip_eq_self _ _ _ hlb hub
  have hstep' : ∀ n : ℕ, (angle_gain_step P CS target)^[n + 1] g0 =
      max ((angle_gain_step P CS target)^[n] g0 -
          max (((angle_gain_step P CS target)^[n] g0 - P.min_torque_reduction_gain) /
              P.angle_torque_override_cycles) (4 / 1000))
        P.min_torque_reduction_gain := by
    intro n
    rw [Function.iterate_succ_apply']
    exact hstep _ (hinv n).1 (hinv n).2
  have hmono : ∀ n : ℕ,
      (angle_gain_step P CS target)^[n + 1] g0 ≤ (angle_gain_step P CS target)^[n] g0 := by
    intro n
    rw [hstep' n]
    refine max_le ?ha (hinv n).1
    have hrate : (4 : ℚ) / 1000 ≤
        max (((angle_gain_step P CS target)^[n] g0 - P.min_torque_reduction_gain) /
          P.angle_torque_override_cycles) (4 / 1000) := le_max_right _ _
    nlinarith
  refine ⟨hmono, hstep', ?hconv⟩
  have hdesc : ∀ n : ℕ, (angle_gain_step P CS target)^[n] g0 = P.min_torque_reduction_gain ∨
      (angle_gain_step P CS target)^[n] g0 ≤ g0 - n * (4 / 1000) := by
    intro n
    induction n with
    | zero => right; simp
    | succ m ihm =>
      rw [hstep' m]
      rcases ihm with h | h
      · left
        rw [h, sub_self, zero_div]
        rw [max_eq_right (show (0 : ℚ) ≤ 4 / 1000 by norm_num)]
        exact max_eq_right (by norm_num)
      · have hrate : (4 : ℚ) / 1000 ≤
            max (((angle_gain_step P CS target)^[m] g0 - P.min_torque_reduction_gain) /
              P.angle_torque_override_cycles) (4 / 1000) := le_max_right _ _
        rcases le_total ((angle_gain_step P CS target)^[m] g0 -
            max (((angle_gain_step P CS target)^[m] g0 - P.min_torque_reduction_gain) /
              P.angle_torque_override_cycles) (4 / 1000)) P.min_torque_reduction_gain with
          hc | hc
        · left
          exact max_eq_right hc
        · right
          rw [max_eq_left hc]
          push_cast
          linarith
  intro n hn
  rcases hdesc n with h | h
  · exact h
  · refine le_antisymm ?hle (hinv n).1
    have ha : ((g0 - P.min_torque_reduction_gain) / (4 / 1000)) ≤
        ((⌈(g0 - P.min_torque_reduction_gain) / (4 / 1000)⌉ : ℤ) : ℚ) := Int.le_ceil _
    have hb : ((⌈(g0 - P.min_torque_reduction_gain) / (4 / 1000)⌉ : ℤ) : ℚ) ≤
        ((⌈(g0 - P.min_torque_reduction_gain) / (4 / 1000)⌉.toNat : ℕ) : ℚ) := by
      exact_mod_cast Int.self_le_toNat _
    have hc2 : ((⌈(g0 - P.min_torque_reduction_gain) / (4 / 1000)⌉.toNat : ℕ) : ℚ) ≤
        (n : ℚ) := by exact_mod_cast hn
    have hchain : (g0 - P.min_torque_reduction_gain) / (4 / 1000) ≤ (n : ℚ) :=
      le_trans ha (le_trans hb hc2)
    rw [div_le_iff₀ (show (0 : ℚ) < 4 / 1000 by norm_num)] at hchain
    linarith

/-- Controller parameters whose maximum gain equals the minimum gain 1/10. -/
def Pmin : ControllerParams := { Pbase with max_torque_reduction_gain := 1 / 10 }

/-- Witness for C6 at concrete inputs. -/
theorem claim_C6_witness :
    (angle_gain_step Pmin CSpressed 0)^[0] (1 / 10 : ℚ) = Pmin.min_torque_reduction_gain :=
  (claim_C6_override_convergence Pmin CSpressed 0 (1 / 10) rfl (by decide) (by decide)
    (by decide) (by decide)).2.2 0 (by decide)

/-! ### Claim C7 -/

/-- Claim C7 (amended): in angle mode, whenever latActive is false on a
tick, the commanded steering angle for that tick equals the vehicle's true
current steering angle read that tick — provided that angle lies within the
static hard clamp ±STEER_ANGLE_MAX, which is applied after the
inactive-tracking override — with no residual integration from earlier
targets; in particular after two consecutive inactive ticks the tick-2
command equals the tick-2 true angle. -/
theorem claim_C7_inactive_tracks_current_angle (P : ControllerParams) (VM : ℚ → ℚ → ℚ)
    (last0 : ℚ) (CS1 : CarState) (CC1 : CarControl) (a1 : ℚ)
    (CS2 : CarState) (CC2 : CarControl) (a2 : ℚ)
    (h1 : CC1.latActive = false) (h2 : CC2.latActive = false)
    (hin : |CS2.steeringAngleDeg| ≤ P.STEER_ANGLE_MAX) :
    apply_hyundai_steer_angle_limits P VM
        (apply_hyundai_steer_angle_limits P VM last0 CS1 CC1 a1) CS2 CC2 a2 =
      CS2.steeringAngleDeg ∧
    ∀ last a : ℚ,
      apply_hyundai_steer_angle_limits P VM last CS2 CC2 a = CS2.steeringAngleDeg := by
  have hb := abs_le.mp hin
  have key : ∀ last a : ℚ,
      apply_hyundai_steer_angle_limits P VM last CS2 CC2 a = CS2.steeringAngleDeg := by
    intro last a
    simp only [apply_hyundai_steer_angle_limits, h2, reduceIte]
    exact clip_eq_self _ _ _ (by linarith [hb.1]) hb.2
  exact ⟨key _ _, key⟩

/-- Claim C7 counterexample: with lateral control inactive, the commanded
angle is the true current angle hard-clamped to ±STEER_ANGLE_MAX, so at a
true angle of 100° and a 90° platform limit the command is 90°, not the
claimed 100°. -/
theorem claim_C7_counterexample :
    apply_hyundai_steer_angle_limits Pbase VM0 0 CS100 CC0 0 = 90 ∧
    CS100.steeringAngleDeg = 100 ∧
    apply_hyundai_steer_angle_limits Pbase VM0 0 CS100 CC0 0 ≠ CS100.steeringAngleDeg := by
  decide

/-- Witness for amended C7 at concrete inputs. -/
theorem claim_C7_witness :
    apply_hyundai_steer_angle_limits Pbase VM0 5 CS0 CC0 3 = CS0.steeringAngleDeg :=
  (claim_C7_inactive_tracks_current_angle Pbase VM0 0 CS0 CC0 0 CS0 CC0 0 rfl rfl
    (by decide)).2 5 3

/-! ### Claim C8 -/

/-- Claim C8: when smoothing is enabled and |speed| is below the configured
threshold: if the candidate angle differs from the last commanded angle by
more than 0.1°, the smoothed output equals alpha·candidate +
(1−alpha)·last, with alpha obtained by piecewise-linear interpolation of
speed over the lookup table and clamped to at most 1; otherwise (difference
≤ 0.1°) the candidate is returned unchanged. -/
theorem claim_C8_smoothing_blend (P : ControllerParams) (v last a : ℚ)
    (hen : P.angle_enable_smoothing_factor = true)
    (hsp : |v| < P.SMOOTHING_ANGLE_MAX_VEGO) :
    (1 / 10 < |clip a (-(8192 / 10)) (8191 / 10) - last| →
      candidate_angle P v last a =
        min (interp v P.SMOOTHING_ANGLE_VEGO_MATRIX P.SMOOTHING_ANGLE_ALPHA_MATRIX) 1 *
            clip a (-(8192 / 10)) (8191 / 10) +
          (1 - min (interp v P.SMOOTHING_ANGLE_VEGO_MATRIX P.SMOOTHING_ANGLE_ALPHA_MATRIX) 1) *
            last) ∧
    (|clip a (-(8192 / 10)) (8191 / 10) - last| ≤ 1 / 10 →
      candidate_angle P v last a = clip a (-(8192 / 10)) (8191 / 10)) := by
  constructor
  · intro h
    simp only [candidate_angle, sp_smooth_angle]
    rw [if_pos ⟨hen, hsp⟩, if_pos h]
    ring
  · intro h
    simp only [candidate_angle, sp_smooth_angle]
    rw [if_pos ⟨hen, hsp⟩, if_neg (not_lt.mpr h)]

/-- Witness for C8 at concrete inputs (blend branch). -/
theorem claim_C8_witness :
    candidate_angle Pbase 0 0 1 =
      min (interp 0 Pbase.SMOOTHING_ANGLE_VEGO_MATRIX Pbase.SMOOTHING_ANGLE_ALPHA_MATRIX) 1 *
          clip 1 (-(8192 / 10)) (8191 / 10) +
        (1 - min (interp 0 Pbase.SMOOTHING_ANGLE_VEGO_MATRIX
              Pbase.SMOOTHING_ANGLE_ALPHA_MATRIX) 1) * 0 :=
  (claim_C8_smoothing_blend Pbase 0 0 1 rfl (by decide)).1 (by decide)

/-! ### Claim C9 -/

/-- Witness for C9 at concrete inputs. -/
theorem claim_C9_witness :
    (create_canfd_msgs Pbase CPfdAlt 26 0 0 false 0 0 0 false CCresume).2.1 = 0 :=
  (claim_C9_alt_button_resume_noop Pbase CPfdAlt 26 0 0 false 0 0 0 false CCresume rfl rfl
    rfl rfl (by decide)).2

/-! ### Claim C10 -/

/-- Claim C10: in torque-steering mode (angle-steering flag clear), no tick
of the orchestrator ever modifies the persisted last-commanded angle, so the
steeringAngleDeg field echoed in the returned actuators equals its
construction-time initial value (0) on every tick, rather than the realized
steering angle. -/
theorem claim_C10_torque_mode_angle_frozen (P : ControllerParams) (CP : CarParams)
    (VM : ℚ → ℚ → ℚ) (hmode : CP.canfd_angle_steering = false) :
    (∀ (s : CCState) (CC : CarControl) (CS : CarState),
      (update P CP VM s CC CS).state.apply_angle_last = s.apply_angle_last ∧
      (update P CP VM s CC CS).actuators.steeringAngleDeg = s.apply_angle_last) ∧
    (∀ inputs : List (CarControl × CarState),
      ∀ o ∈ updateRun P CP VM initState inputs, o.steeringAngleDeg = 0) := by
  have h1 : ∀ (s : CCState) (CC : CarControl) (CS : CarState),
      (update P CP VM s CC CS).state.apply_angle_last = s.apply_angle_last ∧
      (update P CP VM s CC CS).actuators.steeringAngleDeg = s.apply_angle_last := by
    intro s CC CS
    constructor <;> simp [update, hmode]
  refine ⟨h1, ?hrun⟩
  have haux : ∀ (inputs : List (CarControl × CarState)) (s : CCState),
      s.apply_angle_last = 0 →
      ∀ o ∈ updateRun P CP VM s inputs, o.steeringAngleDeg = 0 := by
    intro inputs
    induction inputs with
    | nil =>
      intro s hs o ho
      simp [updateRun] at ho
    | cons i rest ih =>
      intro s hs o ho
      simp only [updateRun] at ho
      rcases List.mem_cons.mp ho with ho | ho
      · rw [ho, (h1 s i.1 i.2).2, hs]
      · exact ih _ (by rw [(h1 s i.1 i.2).1, hs]) o ho
  intro inputs
  exact haux inputs initState rfl

/-- Witness for C10 at a concrete torque-mode tick. -/
theorem claim_C10_witness :
    (update Pbase CPlegacyLong VM0 initState CC0 CS0).state.apply_angle_last =
      initState.apply_angle_last :=
  ((claim_C10_torque_mode_angle_frozen Pbase CPlegacyLong VM0 rfl).1 initState CC0 CS0).1

end RatEval

end OpendbcHyundai
